import Mathlib

/-!
Verification of the attachment upload/download/delete pipeline of the
atlas inventory application (routes `app/api/routes/attachments.py`, the
older variant `backend/app/api/routes/attachments.py`, and the helper
`app/utils.py`).

Bytes are modelled as `Nat` (values < 256), file contents as `List Nat`,
database rows as Lean structures, and the relational store plus the
object store as explicit state threaded through each route handler.
External collaborators (the SQL session, the blob-store client, the
`hashlib` digest) are modelled from their documented contracts, each at
its definition site.
-/

namespace Atlas

/-- Constant `hash_chunk_size = 1024 * 1024  # 1MB chunks` from the routes module. -/
def hash_chunk_size : Nat := 1024 * 1024

/-- Constant `s3_chunk_size = hash_chunk_size` from the routes module. -/
def s3_chunk_size : Nat := hash_chunk_size

/-- Modelled from the `hashlib` contract: the state of an incremental
SHA-256 object is the byte sequence fed so far; `update` appends the new
chunk, and the digest of a state is SHA-256 of the accumulated bytes. -/
def sha256Update (state chunk : List Nat) : List Nat := state ++ chunk

/-- The chunked-hashing loop of `create_attachment`:
`while content := await file.read(hash_chunk_size): hash_obj.update(content)`.
The upload stream is the byte list `stream`; `file.read(n)` returns the
next `n` bytes (`List.take`) and advances the position (`List.drop`);
the loop stops when the read comes back empty. -/
def hashLoop (chunkSize : Nat) (state stream : List Nat) : List Nat :=
  let content := stream.take chunkSize
  if h : content = [] then
    state
  else
    hashLoop chunkSize (sha256Update state content) (stream.drop chunkSize)
termination_by stream.length
decreasing_by
  have hs : stream ≠ [] := by
    intro he; exact h (by simp [content, he])
  have hc : chunkSize ≠ 0 := by
    intro he; exact h (by simp [content, he])
  simp only [List.length_drop]
  exact Nat.sub_lt (List.length_pos.mpr hs) (Nat.pos_of_ne_zero hc)

/-- With a positive chunk size the loop feeds exactly the whole stream,
in order, into the digest state: chunk boundaries are invisible. -/
theorem hashLoop_append (chunkSize : Nat) (hcs : 0 < chunkSize) :
    ∀ stream state : List Nat, hashLoop chunkSize state stream = state ++ stream := by
  have H : ∀ n, ∀ stream : List Nat, stream.length ≤ n →
      ∀ state, hashLoop chunkSize state stream = state ++ stream := by
    intro n
    induction n with
    | zero =>
      intro stream hlen state
      have hnil : stream = [] := List.eq_nil_of_length_eq_zero (Nat.le_zero.mp hlen)
      rw [hashLoop]
      simp [hnil]
    | succ n ih =>
      intro stream hlen state
      rw [hashLoop]
      by_cases hnil : stream.take chunkSize = []
      · have : stream = [] := by
          rcases List.take_eq_nil_iff.mp hnil with h | h
          · exact absurd h (Nat.pos_iff_ne_zero.mp hcs)
          · exact h
        simp [hnil, this]
      · simp only [hnil, dite_false]
        have hdrop : (stream.drop chunkSize).length ≤ n := by
          have hs : stream ≠ [] := by
            intro he; exact hnil (by simp [he])
          have h1 : (stream.drop chunkSize).length < stream.length := by
            simp only [List.length_drop]
            exact Nat.sub_lt (List.length_pos.mpr hs) hcs
          omega
        rw [ih _ hdrop]
        simp [sha256Update, List.append_assoc, List.take_append_drop]
  intro stream state
  exact H stream.length stream (Nat.le_refl _) state

/-! ### SHA-256 (modelled from the `hashlib` contract)

A concrete, executable SHA-256 over byte lists (FIPS 180-4), so that
`hexdigest` is a real function of the accumulated bytes.  Words are
`Nat`s reduced mod `2^32` at every step. -/

/-- Truncate to a 32-bit word. -/
def w32 (n : Nat) : Nat := n % 4294967296

/-- Rotate a 32-bit word right by `n` bit positions. -/
def rotr32 (x n : Nat) : Nat := w32 ((x >>> n) ||| (x <<< (32 - n)))

/-- Round constants of SHA-256 (fractional parts of the cube roots of
the first 64 primes), written in decimal. -/
def sha256K : List Nat :=
  [1116352408, 1899447441, 3049323471, 3921009573, 961987163,
   1508970993, 2453635748, 2870763221, 3624381080, 310598401,
   607225278, 1426881987, 1925078388, 2162078206, 2614888103,
   3248222580, 3835390401, 4022224774, 264347078, 604807628,
   770255983, 1249150122, 1555081692, 1996064986, 2554220882,
   2821834349, 2952996808, 3210313671, 3336571891, 3584528711,
   113926993, 338241895, 666307205, 773529912, 1294757372,
   1396182291, 1695183700, 1986661051, 2177026350, 2456956037,
   2730485921, 2820302411, 3259730800, 3345764771, 3516065817,
   3600352804, 4094571909, 275423344, 430227734, 506948616,
   659060556, 883997877, 958139571, 1322822218, 1537002063,
   1747873779, 1955562222, 2024104815, 2227730452, 2361852424,
   2428436474, 2756734187, 3204031479, 3329325298]

/-- Initial hash state of SHA-256 (fractional parts of the square roots
of the first 8 primes), written in decimal. -/
def sha256H0 : List Nat :=
  [1779033703, 3144134277, 1013904242, 2773480762,
   1359893119, 2600822924, 528734635, 1541459225]

/-- Big-endian byte serialisation of `x` on `n` bytes. -/
def bytesBE (n x : Nat) : List Nat :=
  (List.range n).map (fun i => (x >>> (8 * (n - 1 - i))) % 256)

/-- SHA-256 padding: append `0x80`, zero bytes to reach 56 mod 64, then
the bit length on 8 big-endian bytes. -/
def sha256Pad (msg : List Nat) : List Nat :=
  let l := msg.length
  let zeros := (119 - l % 64) % 64
  msg ++ [0x80] ++ List.replicate zeros 0 ++ bytesBE 8 (l * 8)

/-- Split a list into consecutive blocks of `n` elements. -/
def toBlocks (n : Nat) (l : List Nat) : List (List Nat) :=
  if h : l = [] ∨ n = 0 then []
  else l.take n :: toBlocks n (l.drop n)
termination_by l.length
decreasing_by
  push_neg at h
  simp only [List.length_drop]
  exact Nat.sub_lt (List.length_pos.mpr h.1) (Nat.pos_of_ne_zero h.2)

/-- Assemble a 32-bit word from four big-endian bytes. -/
def word32OfBytes (bs : List Nat) : Nat :=
  bs.foldl (fun acc b => acc * 256 + b) 0

/-- The 64-entry message schedule, extended from the 16 block words. -/
def sha256Schedule (ws : List Nat) (i : Nat) : List Nat :=
  if i = 0 then ws
  else
    let w := sha256Schedule ws (i - 1)
    let j := w.length
    let s0 :=
      (rotr32 (w.getD (j - 15) 0) 7) ^^^ (rotr32 (w.getD (j - 15) 0) 18) ^^^
        ((w.getD (j - 15) 0) >>> 3)
    let s1 :=
      (rotr32 (w.getD (j - 2) 0) 17) ^^^ (rotr32 (w.getD (j - 2) 0) 19) ^^^
        ((w.getD (j - 2) 0) >>> 10)
    w ++ [w32 (w.getD (j - 16) 0 + s0 + w.getD (j - 7) 0 + s1)]

/-- One round of the SHA-256 compression function. -/
def sha256Round (st : List Nat) (kw : Nat × Nat) : List Nat :=
  match st with
  | [a, b, c, d, e, f, g, h] =>
    let S1 := (rotr32 e 6) ^^^ (rotr32 e 11) ^^^ (rotr32 e 25)
    let ch := (e &&& f) ^^^ ((4294967295 - e) &&& g)
    let temp1 := w32 (h + S1 + ch + kw.1 + kw.2)
    let S0 := (rotr32 a 2) ^^^ (rotr32 a 13) ^^^ (rotr32 a 22)
    let maj := (a &&& b) ^^^ (a &&& c) ^^^ (b &&& c)
    let temp2 := w32 (S0 + maj)
    [w32 (temp1 + temp2), a, b, c, w32 (d + temp1), e, f, g]
  | other => other

/-- Process one 64-byte block, updating the 8-word hash state. -/
def sha256Compress (hstate : List Nat) (block : List Nat) : List Nat :=
  let ws := (toBlocks 4 block).map word32OfBytes
  let w := sha256Schedule ws 48
  let final := (sha256K.zip w).foldl sha256Round hstate
  (hstate.zip final).map (fun p => w32 (p.1 + p.2))

/-- Lowercase hex character for a nibble. -/
def hexChar (n : Nat) : Char :=
  if n < 10 then Char.ofNat (48 + n) else Char.ofNat (87 + n)

/-- Lowercase hex rendering of a 32-bit word on 8 characters. -/
def wordToHex (x : Nat) : List Char :=
  (List.range 8).map (fun i => hexChar ((x >>> (4 * (7 - i))) % 16))

/-- Full SHA-256 hex digest of a byte list, matching
`hashlib.sha256(bytes).hexdigest()`. -/
def sha256Hex (msg : List Nat) : String :=
  let blocks := toBlocks 64 (sha256Pad msg)
  let hstate := blocks.foldl sha256Compress sha256H0
  String.mk (hstate.map wordToHex).flatten

/-! ### Content-Disposition helper (`app/utils.py`)

Filenames are lists of Unicode code points (`Char`).  The two library
calls (`unicodedata.normalize("NFKD", ·)` and `urllib.parse.quote`) are
modelled from their documented contracts at their definition sites. -/

/-- Modelled from the `unicodedata` contract: per-character NFKD
decomposition.  Every ASCII character is NFKD-normal and maps to itself;
of the non-ASCII characters the table covers the ones exercised here
(U+00E9 é decomposes to `e` + U+0301 combining acute); other non-ASCII
characters are left in place, which is all the theorems below depend on. -/
def decompChar (c : Char) : List Char :=
  if c.toNat < 128 then [c]
  else if c.toNat = 0xE9 then [Char.ofNat 0x65, Char.ofNat 0x301]
  else [c]

/-- Call `normalize("NFKD", filename)`: character-wise decomposition. -/
def nfkd (s : List Char) : List Char := (s.map decompChar).flatten

/-- Call `.encode("ascii", "ignore").decode("ascii")`: drop every non-ASCII
character, keep the rest unchanged. -/
def asciiIgnore (s : List Char) : List Char := s.filter (fun c => c.toNat < 128)

/-- UTF-8 encoding of one code point. -/
def utf8Bytes (n : Nat) : List Nat :=
  if n < 0x80 then [n]
  else if n < 0x800 then
    [0xC0 ||| (n >>> 6), 0x80 ||| (n &&& 0x3F)]
  else if n < 0x10000 then
    [0xE0 ||| (n >>> 12), 0x80 ||| ((n >>> 6) &&& 0x3F), 0x80 ||| (n &&& 0x3F)]
  else
    [0xF0 ||| (n >>> 18), 0x80 ||| ((n >>> 12) &&& 0x3F),
     0x80 ||| ((n >>> 6) &&& 0x3F), 0x80 ||| (n &&& 0x3F)]

/-- Characters `urllib.parse.quote` leaves unencoded by default:
unreserved characters plus `/`. -/
def quoteSafe (c : Char) : Bool :=
  (97 ≤ c.toNat && c.toNat ≤ 122) || (65 ≤ c.toNat && c.toNat ≤ 90) ||
    (48 ≤ c.toNat && c.toNat ≤ 57) ||
    c == '_' || c == '.' || c == '-' || c == '~' || c == '/'

/-- Uppercase hex character for a nibble, as used in percent-escapes. -/
def hexUpper (n : Nat) : Char :=
  if n < 10 then Char.ofNat (48 + n) else Char.ofNat (55 + n)

/-- Modelled from the `urllib.parse` contract: `quote(s)` keeps safe
characters and percent-encodes the UTF-8 bytes of the rest. -/
def quote (s : List Char) : List Char :=
  (s.map (fun c =>
    if quoteSafe c then [c]
    else ((utf8Bytes c.toNat).map
      (fun b => ['%', hexUpper (b / 16), hexUpper (b % 16)])).flatten)).flatten

/-- Literal argument `"attachment"` passed as disposition type by both download handlers. -/
def attachmentWord : List Char := "attachment".data

/-- Function `content_disposition_header` from `app/utils.py`: ASCII-fold the
filename for the plain `filename=` parameter and, exactly when folding
changed it, append the RFC 5987 `filename*` parameter. -/
def content_disposition_header (filename : List Char) (type : List Char) : List Char :=
  let ascii := asciiIgnore (nfkd filename)
  let header := type ++ "; filename=\"".data ++ ascii ++ "\"".data
  if ascii ≠ filename then
    header ++ "; filename*=UTF-8\x27\x27".data ++ quote filename
  else
    header

/-! ### Data model and server state

The relational store (`items`, `attachments` tables with the integer
primary keys the DB generates) and the object store (a key-to-bytes
map, last writer wins) are carried as one explicit state record. -/

/-- Type `fastapi.HTTPException`: status code plus detail message. -/
structure HTTPException where
  status : Nat
  detail : String
deriving Repr, DecidableEq

/-- Type `app.models.Message`. -/
structure Message where
  detail : String
deriving Repr, DecidableEq

/-- Type `fastapi.UploadFile`: declared filename, content type and size, and
the body bytes the stream will deliver. -/
structure UploadFileRec where
  filename : List Char
  content_type : String
  size : Nat
  bytes : List Nat
deriving Repr, DecidableEq

/-- A persisted `Attachment` row (`app/models/attachment.py`), after the
DB has assigned its identity column. -/
structure AttachmentRec where
  id : Nat
  item_id : Nat
  filename : List Char
  content_type : String
  filesize : Nat
  checksum_sha256 : Option String
deriving Repr, DecidableEq

/-- The state a request handler reads and writes: the `item` table (by
id), the `attachment` table, the next identity value, and the object
store's key-to-bytes map. -/
structure ServerState where
  items : List Nat
  attachments : List AttachmentRec
  nextAttachmentId : Nat
  store : List (String × List Nat)
deriving Repr, DecidableEq

/-- Call `session.get(Attachment, attachment_id)`: primary-key lookup.  Note
that it does not involve any item id. -/
def getAttachment (st : ServerState) (attachment_id : Nat) : Option AttachmentRec :=
  st.attachments.find? (fun a => a.id == attachment_id)

/-- Call `session.delete(attachment)` followed by `commit`: remove the row with the
given primary key (primary keys are unique, so the filter removes one row). -/
def deleteAttachmentRow (st : ServerState) (attachment_id : Nat) : List AttachmentRec :=
  st.attachments.filter (fun a => a.id != attachment_id)

/-- Replace the row sharing `a`'s primary key (the ORM flush of an
in-session mutation). -/
def updateById (rows : List AttachmentRec) (a : AttachmentRec) : List AttachmentRec :=
  rows.map (fun x => if x.id == a.id then a else x)

/-! ### Route handlers (`app/api/routes/attachments.py`, current variant) -/

/-- Function `attachment_path`: the object-store key,
`f"item_\x7battachment.item_id\x7d/attachments/\x7battachment.id\x7d"`. -/
def attachment_path (attachment : AttachmentRec) : String :=
  "item_" ++ toString attachment.item_id ++ "/attachments/" ++ toString attachment.id

/-- Handler `create_attachment` for POST of an attachment to an item.  Here `putOk`
is the outcome of the blob-store `obstore.put_async` call (the only
call that can fail here).  Mirrors the source order: item lookup; insert
and commit the row without a checksum; chunked-hash the stream; set the
checksum in memory; put the blob; commit the checksum only after a
successful put, else raise 500 with the in-session change discarded. -/
def create_attachment (st : ServerState) (item_id : Nat) (file : UploadFileRec)
    (putOk : Bool) : ServerState × Except HTTPException AttachmentRec :=
  if st.items.contains item_id then
    let attachment : AttachmentRec :=
      { id := st.nextAttachmentId, item_id := item_id, filename := file.filename,
        content_type := file.content_type, filesize := file.size,
        checksum_sha256 := none }
    let st1 : ServerState :=
      { st with attachments := st.attachments ++ [attachment],
                nextAttachmentId := st.nextAttachmentId + 1 }
    let checksum := sha256Hex (hashLoop hash_chunk_size [] file.bytes)
    let attachment2 := { attachment with checksum_sha256 := some checksum }
    if putOk then
      let st2 := { st1 with store := (attachment_path attachment2, file.bytes) :: st1.store }
      let st3 := { st2 with attachments := updateById st2.attachments attachment2 }
      (st3, .ok attachment2)
    else
      (st1, .error ⟨500, "Upload failed"⟩)
  else
    (st, .error ⟨404, "Item not found"⟩)

/-- The streamed download response: the bytes the obstore stream will
deliver, the media type, and the Content-Disposition header value. -/
structure StreamingResp where
  content : List Nat
  media_type : String
  content_disposition : List Char
deriving Repr, DecidableEq

/-- Handler `get_attachment` (current variant) for GET of an attachment.
Here `getErr` is true when
`obstore.get_async` raises an error other than `FileNotFoundError`
(caught by the generic handler as a 500); a missing key raises
`FileNotFoundError` and is mapped to its own 404. -/
def get_attachment (st : ServerState) (item_id attachment_id : Nat) (getErr : Bool) :
    Except HTTPException StreamingResp :=
  if st.items.contains item_id then
    match getAttachment st attachment_id with
    | none => .error ⟨404, "Attachment not found"⟩
    | some attachment =>
      if getErr then .error ⟨500, "Download failed"⟩
      else
        match st.store.lookup (attachment_path attachment) with
        | some bytes =>
          .ok ⟨bytes, attachment.content_type,
               content_disposition_header attachment.filename attachmentWord⟩
        | none => .error ⟨404, "Attachment not found in object store"⟩
  else
    .error ⟨404, "Item not found"⟩

/-- Outcome of the blob-store `obstore.delete_async` call. -/
inductive StoreDeleteOutcome
  | ok
  | fileNotFound
  | otherError
deriving Repr, DecidableEq

/-- Handler `delete_attachment` (current variant).  The row delete is issued but
not committed before the blob delete; `FileNotFoundError` is only
logged (the end state — no blob — holds either way) and the commit
still runs; any other exception propagates uncaught, so the commit
never executes, the session is rolled back, and the framework's error
middleware answers with a plain 500. -/
def delete_attachment (st : ServerState) (item_id attachment_id : Nat)
    (storeRes : StoreDeleteOutcome) : ServerState × Except HTTPException Message :=
  if st.items.contains item_id then
    match getAttachment st attachment_id with
    | none => (st, .error ⟨404, "Attachment not found"⟩)
    | some attachment =>
      match storeRes with
      | .otherError => (st, .error ⟨500, "Internal Server Error"⟩)
      | _ =>
        let path := attachment_path attachment
        let st2 : ServerState :=
          { st with attachments := deleteAttachmentRow st attachment_id,
                    store := st.store.filter (fun kv => kv.1 != path) }
        (st2, .ok ⟨"Attachment deleted successfully"⟩)
  else
    (st, .error ⟨404, "Item not found"⟩)

/-! ### Older variant (`backend/app/api/routes/attachments.py`) -/

/-- The object-store key built by all three handlers of the older
variant:
`f"\x7bsettings.s3.path_prefix\x7bitem_\x7b...\x7d/attachments/\x7b...\x7d"`,
prefixed by the configured `path_prefix`. -/
def backend_s3_key (pfx : String) (attachment : AttachmentRec) : String :=
  pfx ++ "item_" ++ toString attachment.item_id ++ "/attachments/"
    ++ toString attachment.id

/-- Default of `S3Settings.path_prefix` from `app/core/config.py`. -/
def s3_path_prefix_default : String := "/"

/-- Generator `get_s3_chunk` of the older variant: it performs
`await stream.read()` — the whole body in one call — and yields exactly
once, so the chunk sequence it produces is the single whole object.
(`s3_chunk_size` is defined in that module but never used here.) -/
def get_s3_chunk (body : List Nat) : List (List Nat) := [body]

/-- The older variant's `StreamingResponse`: the generator argument is
kept unevaluated — the object store is only contacted once the response
body is iterated, after the handler has returned. -/
structure BackendStreamingResp where
  gen_attachment : AttachmentRec
  media_type : String
  content_disposition : List Char
deriving Repr, DecidableEq

/-- Handler `get_attachment` of the older variant: after the two row lookups the
handler returns the `StreamingResponse` immediately; the blob store is
not consulted before the response (and its 200 status) is produced. -/
def backend_get_attachment (st : ServerState) (item_id attachment_id : Nat) :
    Except HTTPException BackendStreamingResp :=
  if st.items.contains item_id then
    match getAttachment st attachment_id with
    | none => .error ⟨404, "Attachment not found"⟩
    | some attachment =>
      .ok ⟨attachment, attachment.content_type,
           content_disposition_header attachment.filename attachmentWord⟩
  else
    .error ⟨404, "Item not found"⟩

/-! ### Claims -/

/-- C1: for every uploaded file, the checksum stored on the Attachment
record by `create_attachment` equals the SHA-256 digest of the entire
file content — the 1 MiB chunked incremental hashing loop is
order-preserving and complete, so chunk-boundary alignment is
invisible.  The record returned carries exactly that digest, and the
same record is persisted in the attachments table. -/
theorem create_attachment_checksum_whole_file (st : ServerState) (item_id : Nat)
    (file : UploadFileRec) (h : st.items.contains item_id = true) :
    (create_attachment st item_id file true).2 =
      .ok { id := st.nextAttachmentId, item_id := item_id, filename := file.filename,
            content_type := file.content_type, filesize := file.size,
            checksum_sha256 := some (sha256Hex file.bytes) } ∧
    ({ id := st.nextAttachmentId, item_id := item_id, filename := file.filename,
       content_type := file.content_type, filesize := file.size,
       checksum_sha256 := some (sha256Hex file.bytes) } : AttachmentRec) ∈
      (create_attachment st item_id file true).1.attachments := by
  have hchunk : hashLoop hash_chunk_size [] file.bytes = file.bytes := by
    rw [hashLoop_append hash_chunk_size (by norm_num [hash_chunk_size])]
    simp
  have h' : item_id ∈ st.items := by simpa using h
  constructor
  · simp [create_attachment, h', hchunk]
  · simp only [create_attachment, hchunk]
    rw [if_pos h]
    simp only [updateById]
    refine List.mem_map.mpr
      ⟨_, List.mem_append_right _ (List.mem_singleton.mpr rfl), ?_⟩
    simp

/-- Witness for C1 at a concrete state and file. -/
theorem create_attachment_checksum_whole_file_witness :
    (ServerState.mk [1] [] 1 []).items.contains 1 = true ∧
    ((create_attachment ⟨[1], [], 1, []⟩ 1 ⟨['f'], "t", 3, [10, 20, 30]⟩ true).2 =
      .ok { id := 1, item_id := 1, filename := ['f'], content_type := "t",
            filesize := 3, checksum_sha256 := some (sha256Hex [10, 20, 30]) } ∧
    ({ id := 1, item_id := 1, filename := ['f'], content_type := "t",
       filesize := 3, checksum_sha256 := some (sha256Hex [10, 20, 30]) } : AttachmentRec) ∈
      (create_attachment ⟨[1], [], 1, []⟩ 1 ⟨['f'], "t", 3, [10, 20, 30]⟩ true).1.attachments) :=
  ⟨by decide,
   create_attachment_checksum_whole_file ⟨[1], [], 1, []⟩ 1 ⟨['f'], "t", 3, [10, 20, 30]⟩
     (by decide)⟩

/-- C3: uploading to a non-existent item id returns NotFound and leaves
the whole state unchanged — no Attachment row inserted, no blob
written. -/
theorem create_attachment_missing_item_unchanged (st : ServerState) (item_id : Nat)
    (file : UploadFileRec) (putOk : Bool) (h : st.items.contains item_id = false) :
    create_attachment st item_id file putOk = (st, .error ⟨404, "Item not found"⟩) := by
  have h' : item_id ∉ st.items := by simpa using h
  simp [create_attachment, h']

/-- Witness for C3: item 7 does not exist in a state with only item 1. -/
theorem create_attachment_missing_item_unchanged_witness :
    (ServerState.mk [1] [] 1 []).items.contains 7 = false ∧
    create_attachment ⟨[1], [], 1, []⟩ 7 ⟨['f'], "t", 3, [10]⟩ true =
      (⟨[1], [], 1, []⟩, .error ⟨404, "Item not found"⟩) :=
  ⟨by decide,
   create_attachment_missing_item_unchanged ⟨[1], [], 1, []⟩ 7 ⟨['f'], "t", 3, [10]⟩ true
     (by decide)⟩

/-- C5: the persisted row carries no checksum from insertion until the
blob put succeeds: the row first committed has `checksum_sha256 = none`;
if the put fails the handler raises 500 and the persisted row still has
no checksum; only on a successful put is the checksum committed. -/
theorem checksum_absent_until_put_success (st : ServerState) (item_id : Nat)
    (file : UploadFileRec) (h : st.items.contains item_id = true) :
    (create_attachment st item_id file false).1.attachments =
      st.attachments ++
        [{ id := st.nextAttachmentId, item_id := item_id, filename := file.filename,
           content_type := file.content_type, filesize := file.size,
           checksum_sha256 := none }] ∧
    (create_attachment st item_id file false).2 = .error ⟨500, "Upload failed"⟩ ∧
    (create_attachment st item_id file true).2 =
      .ok { id := st.nextAttachmentId, item_id := item_id, filename := file.filename,
            content_type := file.content_type, filesize := file.size,
            checksum_sha256 :=
              some (sha256Hex (hashLoop hash_chunk_size [] file.bytes)) } := by
  have h' : item_id ∈ st.items := by simpa using h
  refine ⟨?_, ?_, ?_⟩ <;> simp [create_attachment, h']

/-- Witness for C5 at a concrete state and file. -/
theorem checksum_absent_until_put_success_witness :
    (ServerState.mk [1] [] 1 []).items.contains 1 = true ∧
    ((create_attachment ⟨[1], [], 1, []⟩ 1 ⟨['f'], "t", 2, [7, 9]⟩ false).1.attachments =
      [{ id := 1, item_id := 1, filename := ['f'], content_type := "t",
         filesize := 2, checksum_sha256 := none }] ∧
    (create_attachment ⟨[1], [], 1, []⟩ 1 ⟨['f'], "t", 2, [7, 9]⟩ false).2 =
      .error ⟨500, "Upload failed"⟩ ∧
    (create_attachment ⟨[1], [], 1, []⟩ 1 ⟨['f'], "t", 2, [7, 9]⟩ true).2 =
      .ok { id := 1, item_id := 1, filename := ['f'], content_type := "t",
            filesize := 2,
            checksum_sha256 :=
              some (sha256Hex (hashLoop hash_chunk_size [] [7, 9])) }) :=
  ⟨by decide,
   checksum_absent_until_put_success ⟨[1], [], 1, []⟩ 1 ⟨['f'], "t", 2, [7, 9]⟩ (by decide)⟩

/-- C7: deleting an existing attachment twice: the first call returns
the 200 confirmation message and removes the database row; the second
call with the same ids hits the now-missing row and returns NotFound. -/
theorem delete_attachment_twice (st : ServerState) (item_id attachment_id : Nat)
    (att : AttachmentRec)
    (hitem : st.items.contains item_id = true)
    (hatt : getAttachment st attachment_id = some att) :
    (delete_attachment st item_id attachment_id .ok).2 =
      .ok ⟨"Attachment deleted successfully"⟩ ∧
    (delete_attachment (delete_attachment st item_id attachment_id .ok).1
        item_id attachment_id .ok).2 = .error ⟨404, "Attachment not found"⟩ := by
  have hfst : delete_attachment st item_id attachment_id .ok =
      ({ st with attachments := deleteAttachmentRow st attachment_id,
                 store := st.store.filter
                   (fun kv => kv.1 != attachment_path att) },
       .ok ⟨"Attachment deleted successfully"⟩) := by
    simp only [delete_attachment]
    rw [if_pos hitem, hatt]
  refine ⟨by rw [hfst], ?_⟩
  rw [hfst]
  have hnone : getAttachment
      { st with attachments := deleteAttachmentRow st attachment_id,
                store := st.store.filter
                  (fun kv => kv.1 != attachment_path att) } attachment_id = none := by
    simp only [getAttachment, deleteAttachmentRow]
    rw [List.find?_eq_none]
    intro a ha
    have := (List.mem_filter.mp ha).2
    simp only [bne_iff_ne, ne_eq] at this
    simp [this]
  simp only [delete_attachment]
  rw [if_pos hitem, hnone]

/-- Witness for C7 at a concrete state holding one attachment. -/
theorem delete_attachment_twice_witness :
    (ServerState.mk [1] [⟨5, 1, ['a'], "text/plain", 3, some "c"⟩] 6
        [("item_1/attachments/5", [1, 2, 3])]).items.contains 1 = true ∧
    getAttachment ⟨[1], [⟨5, 1, ['a'], "text/plain", 3, some "c"⟩], 6,
        [("item_1/attachments/5", [1, 2, 3])]⟩ 5 =
      some ⟨5, 1, ['a'], "text/plain", 3, some "c"⟩ ∧
    ((delete_attachment ⟨[1], [⟨5, 1, ['a'], "text/plain", 3, some "c"⟩], 6,
        [("item_1/attachments/5", [1, 2, 3])]⟩ 1 5 .ok).2 =
      .ok ⟨"Attachment deleted successfully"⟩ ∧
    (delete_attachment
        (delete_attachment ⟨[1], [⟨5, 1, ['a'], "text/plain", 3, some "c"⟩], 6,
          [("item_1/attachments/5", [1, 2, 3])]⟩ 1 5 .ok).1 1 5 .ok).2 =
      .error ⟨404, "Attachment not found"⟩) :=
  ⟨by decide, by decide,
   delete_attachment_twice ⟨[1], [⟨5, 1, ['a'], "text/plain", 3, some "c"⟩], 6,
     [("item_1/attachments/5", [1, 2, 3])]⟩ 1 5 ⟨5, 1, ['a'], "text/plain", 3, some "c"⟩
     (by decide) (by decide)⟩

/-- C10: in the delete handler, a blob-store delete failure other than
a missing blob leaves the whole state unchanged — the commit never runs
— and surfaces as a 500; a merely-absent blob is tolerated: the row
deletion is still committed and the confirmation message returned. -/
theorem delete_attachment_error_paths (st : ServerState) (item_id attachment_id : Nat)
    (att : AttachmentRec)
    (hitem : st.items.contains item_id = true)
    (hatt : getAttachment st attachment_id = some att) :
    delete_attachment st item_id attachment_id .otherError =
      (st, .error ⟨500, "Internal Server Error"⟩) ∧
    (delete_attachment st item_id attachment_id .fileNotFound).2 =
      .ok ⟨"Attachment deleted successfully"⟩ ∧
    (delete_attachment st item_id attachment_id .fileNotFound).1.attachments =
      deleteAttachmentRow st attachment_id := by
  refine ⟨?_, ?_, ?_⟩ <;>
    · simp only [delete_attachment]
      rw [if_pos hitem, hatt]

/-- Witness for C10 at a concrete state holding one attachment. -/
theorem delete_attachment_error_paths_witness :
    (ServerState.mk [1] [⟨5, 1, ['a'], "text/plain", 3, some "c"⟩] 6
        [("item_1/attachments/5", [1, 2, 3])]).items.contains 1 = true ∧
    getAttachment ⟨[1], [⟨5, 1, ['a'], "text/plain", 3, some "c"⟩], 6,
        [("item_1/attachments/5", [1, 2, 3])]⟩ 5 =
      some ⟨5, 1, ['a'], "text/plain", 3, some "c"⟩ ∧
    (delete_attachment ⟨[1], [⟨5, 1, ['a'], "text/plain", 3, some "c"⟩], 6,
        [("item_1/attachments/5", [1, 2, 3])]⟩ 1 5 .otherError =
      (⟨[1], [⟨5, 1, ['a'], "text/plain", 3, some "c"⟩], 6,
        [("item_1/attachments/5", [1, 2, 3])]⟩,
       .error ⟨500, "Internal Server Error"⟩) ∧
    (delete_attachment ⟨[1], [⟨5, 1, ['a'], "text/plain", 3, some "c"⟩], 6,
        [("item_1/attachments/5", [1, 2, 3])]⟩ 1 5 .fileNotFound).2 =
      .ok ⟨"Attachment deleted successfully"⟩ ∧
    (delete_attachment ⟨[1], [⟨5, 1, ['a'], "text/plain", 3, some "c"⟩], 6,
        [("item_1/attachments/5", [1, 2, 3])]⟩ 1 5 .fileNotFound).1.attachments =
      deleteAttachmentRow ⟨[1], [⟨5, 1, ['a'], "text/plain", 3, some "c"⟩], 6,
        [("item_1/attachments/5", [1, 2, 3])]⟩ 5) :=
  ⟨by decide, by decide,
   delete_attachment_error_paths ⟨[1], [⟨5, 1, ['a'], "text/plain", 3, some "c"⟩], 6,
     [("item_1/attachments/5", [1, 2, 3])]⟩ 1 5 ⟨5, 1, ['a'], "text/plain", 3, some "c"⟩
     (by decide) (by decide)⟩

/-- C2 counterexample: the download handler never compares the
attachment's owning item against the requested item id.  With items 1
and 2 present and attachment 5 owned by item 1, requesting it under
item 2 returns the file instead of NotFound. -/
theorem get_attachment_wrong_owner_serves :
    (get_attachment ⟨[1, 2], [⟨5, 1, ['a'], "text/plain", 3, some "c"⟩], 6,
        [("item_1/attachments/5", [1, 2, 3])]⟩ 2 5 false) =
      .ok ⟨[1, 2, 3], "text/plain", content_disposition_header ['a'] attachmentWord⟩ ∧
    (⟨5, 1, ['a'], "text/plain", 3, some "c"⟩ : AttachmentRec).item_id ≠ 2 := by
  exact ⟨rfl, by decide⟩

/-- C2 amended: an attachment id with no row yields NotFound; an item
id with no row yields NotFound regardless of the attachment id.  (A
wrong item id that refers to another existing item is not rejected:
the ownership of the attachment is never checked — see the
counterexample.) -/
theorem get_attachment_notfound_amended (st : ServerState)
    (item_id attachment_id : Nat) (getErr : Bool) :
    (st.items.contains item_id = true → getAttachment st attachment_id = none →
      get_attachment st item_id attachment_id getErr =
        .error ⟨404, "Attachment not found"⟩) ∧
    (st.items.contains item_id = false →
      get_attachment st item_id attachment_id getErr =
        .error ⟨404, "Item not found"⟩) := by
  constructor
  · intro hitem hatt
    simp only [get_attachment]
    rw [if_pos hitem, hatt]
  · intro hitem
    have h' : item_id ∉ st.items := by simpa using hitem
    simp [get_attachment, h']

/-- Witness for the amended C2: both NotFound branches at concrete
states. -/
theorem get_attachment_notfound_amended_witness :
    ((ServerState.mk [1] [] 1 []).items.contains 1 = true ∧
      getAttachment ⟨[1], [], 1, []⟩ 9 = none ∧
      get_attachment ⟨[1], [], 1, []⟩ 1 9 false =
        .error ⟨404, "Attachment not found"⟩) ∧
    ((ServerState.mk [1] [] 1 []).items.contains 3 = false ∧
      get_attachment ⟨[1], [], 1, []⟩ 3 9 false =
        .error ⟨404, "Item not found"⟩) :=
  ⟨⟨by decide, by decide,
    (get_attachment_notfound_amended ⟨[1], [], 1, []⟩ 1 9 false).1 (by decide) (by decide)⟩,
   ⟨by decide,
    (get_attachment_notfound_amended ⟨[1], [], 1, []⟩ 3 9 false).2 (by decide)⟩⟩

/-- C4 counterexample: the older variant builds its object-store key
with the configured `path_prefix` prepended; under the default prefix
the key for attachment 2 of item 1 is `/item_1/attachments/2`, not the
bit-exact `item_1/attachments/2` the claim requires. -/
theorem backend_key_not_bare_convention :
    backend_s3_key s3_path_prefix_default ⟨2, 1, [], "x", 0, none⟩ =
      "/item_1/attachments/2" ∧
    backend_s3_key s3_path_prefix_default ⟨2, 1, [], "x", 0, none⟩ ≠
      "item_1/attachments/2" := by
  constructor
  · rfl
  · decide

/-- C4 amended: the current variant derives the key for all three
operations from exactly `attachment_path`, the string
`item_` + item id + `/attachments/` + attachment id with no filename or
other component: the upload writes the blob at that key for the new
record, the download reads that key, and the delete removes exactly
that key.  The older variant uses the same convention string but with
the configured `path_prefix` prepended. -/
theorem storage_key_convention_amended (st : ServerState) (item_id : Nat)
    (file : UploadFileRec) (att : AttachmentRec) (pfx : String)
    (hitem : st.items.contains item_id = true)
    (hatt : getAttachment st att.id = some att) :
    attachment_path att =
      "item_" ++ toString att.item_id ++ "/attachments/" ++ toString att.id ∧
    (create_attachment st item_id file true).1.store =
      ("item_" ++ toString item_id ++ "/attachments/" ++ toString st.nextAttachmentId,
        file.bytes) :: st.store ∧
    (∀ bytes, st.store.lookup (attachment_path att) = some bytes →
      get_attachment st item_id att.id false =
        .ok ⟨bytes, att.content_type,
             content_disposition_header att.filename attachmentWord⟩) ∧
    (delete_attachment st item_id att.id .ok).1.store =
      st.store.filter (fun kv => kv.1 != attachment_path att) ∧
    backend_s3_key pfx att = pfx ++ attachment_path att := by
  refine ⟨rfl, ?_, ?_, ?_, ?_⟩
  · simp only [create_attachment]
    rw [if_pos hitem]
    simp [attachment_path]
  · intro bytes hbytes
    simp only [get_attachment]
    rw [if_pos hitem, hatt]
    simp [hbytes]
  · simp only [delete_attachment]
    rw [if_pos hitem, hatt]
  · simp [backend_s3_key, attachment_path, String.append_assoc]

/-- Witness for the amended C4 at a concrete state, file and record. -/
theorem storage_key_convention_amended_witness :
    (ServerState.mk [1] [⟨5, 1, ['a'], "text/plain", 3, some "c"⟩] 6
        [("item_1/attachments/5", [1, 2, 3])]).items.contains 1 = true ∧
    getAttachment ⟨[1], [⟨5, 1, ['a'], "text/plain", 3, some "c"⟩], 6,
        [("item_1/attachments/5", [1, 2, 3])]⟩ 5 =
      some ⟨5, 1, ['a'], "text/plain", 3, some "c"⟩ ∧
    (attachment_path ⟨5, 1, ['a'], "text/plain", 3, some "c"⟩ =
      "item_" ++ toString 1 ++ "/attachments/" ++ toString 5 ∧
    (create_attachment ⟨[1], [⟨5, 1, ['a'], "text/plain", 3, some "c"⟩], 6,
        [("item_1/attachments/5", [1, 2, 3])]⟩ 1 ⟨['f'], "t", 1, [9]⟩ true).1.store =
      ("item_" ++ toString 1 ++ "/attachments/" ++ toString 6, [9]) ::
        [("item_1/attachments/5", [1, 2, 3])] ∧
    (∀ bytes,
      ([("item_1/attachments/5", [1, 2, 3])] : List (String × List Nat)).lookup
          (attachment_path ⟨5, 1, ['a'], "text/plain", 3, some "c"⟩) = some bytes →
      get_attachment ⟨[1], [⟨5, 1, ['a'], "text/plain", 3, some "c"⟩], 6,
          [("item_1/attachments/5", [1, 2, 3])]⟩ 1 5 false =
        .ok ⟨bytes, "text/plain", content_disposition_header ['a'] attachmentWord⟩) ∧
    (delete_attachment ⟨[1], [⟨5, 1, ['a'], "text/plain", 3, some "c"⟩], 6,
        [("item_1/attachments/5", [1, 2, 3])]⟩ 1 5 .ok).1.store =
      ([("item_1/attachments/5", [1, 2, 3])] : List (String × List Nat)).filter
        (fun kv => kv.1 !=
          attachment_path ⟨5, 1, ['a'], "text/plain", 3, some "c"⟩) ∧
    backend_s3_key "/" ⟨5, 1, ['a'], "text/plain", 3, some "c"⟩ =
      "/" ++ attachment_path ⟨5, 1, ['a'], "text/plain", 3, some "c"⟩) :=
  ⟨by decide, by decide,
   storage_key_convention_amended
     ⟨[1], [⟨5, 1, ['a'], "text/plain", 3, some "c"⟩], 6,
       [("item_1/attachments/5", [1, 2, 3])]⟩ 1 ⟨['f'], "t", 1, [9]⟩
     ⟨5, 1, ['a'], "text/plain", 3, some "c"⟩ "/" (by decide) (by decide)⟩

/-- C8 counterexample: in the older variant the blob is fetched lazily
inside the streaming generator, so with the item and the attachment row
present but the blob absent from the (empty) store the handler still
returns the streaming response — no 404 of any kind is produced. -/
theorem backend_get_missing_blob_returns_ok :
    backend_get_attachment ⟨[1], [⟨1, 1, ['a'], "text/plain", 3, some "c"⟩], 2, []⟩ 1 1 =
      .ok ⟨⟨1, 1, ['a'], "text/plain", 3, some "c"⟩, "text/plain",
           content_disposition_header ['a'] attachmentWord⟩ ∧
    (ServerState.mk [1] [⟨1, 1, ['a'], "text/plain", 3, some "c"⟩] 2 []).store.lookup
      (attachment_path ⟨1, 1, ['a'], "text/plain", 3, some "c"⟩) = none := by
  exact ⟨rfl, rfl⟩

/-- C8 amended: in the current variant, when the item and the
attachment row exist but the blob is missing from the object store, the
download fails with a 404 whose message differs from the
missing-record message.  (The older variant defers the blob fetch into
the response generator and returns a 200 streaming response instead —
see the counterexample.) -/
theorem get_missing_blob_distinct_404 (st : ServerState)
    (item_id attachment_id : Nat) (att : AttachmentRec)
    (hitem : st.items.contains item_id = true)
    (hatt : getAttachment st attachment_id = some att)
    (hblob : st.store.lookup (attachment_path att) = none) :
    get_attachment st item_id attachment_id false =
      .error ⟨404, "Attachment not found in object store"⟩ ∧
    ("Attachment not found in object store" : String) ≠ "Attachment not found" := by
  refine ⟨?_, by decide⟩
  simp only [get_attachment]
  rw [if_pos hitem, hatt]
  simp [hblob]

/-- Witness for the amended C8: record present, store empty. -/
theorem get_missing_blob_distinct_404_witness :
    (ServerState.mk [1] [⟨1, 1, ['a'], "text/plain", 3, some "c"⟩] 2 []).items.contains
      1 = true ∧
    getAttachment ⟨[1], [⟨1, 1, ['a'], "text/plain", 3, some "c"⟩], 2, []⟩ 1 =
      some ⟨1, 1, ['a'], "text/plain", 3, some "c"⟩ ∧
    (ServerState.mk [1] [⟨1, 1, ['a'], "text/plain", 3, some "c"⟩] 2 []).store.lookup
      (attachment_path ⟨1, 1, ['a'], "text/plain", 3, some "c"⟩) = none ∧
    (get_attachment ⟨[1], [⟨1, 1, ['a'], "text/plain", 3, some "c"⟩], 2, []⟩ 1 1 false =
      .error ⟨404, "Attachment not found in object store"⟩ ∧
    ("Attachment not found in object store" : String) ≠ "Attachment not found") :=
  ⟨by decide, by decide, by decide,
   get_missing_blob_distinct_404 ⟨[1], [⟨1, 1, ['a'], "text/plain", 3, some "c"⟩], 2, []⟩
     1 1 ⟨1, 1, ['a'], "text/plain", 3, some "c"⟩ (by decide) (by decide) (by decide)⟩

/-- C9 (code bug in the older variant): the download generator does not
stream in successive bounded chunks — it yields exactly one chunk that
is the entire object, so for any blob larger than `s3_chunk_size` a
produced chunk exceeds the chunk size: the whole object is materialized
at once.  (`s3_chunk_size` is defined in that module but never used by
the generator.) -/
theorem get_s3_chunk_materializes_whole_body (body : List Nat)
    (h : s3_chunk_size < body.length) :
    get_s3_chunk body = [body] ∧
    ∃ chunk ∈ get_s3_chunk body, s3_chunk_size < chunk.length ∧ chunk = body :=
  ⟨rfl, body, List.mem_singleton.mpr rfl, h, rfl⟩

/-- Witness for C9 on a blob one byte larger than the chunk size. -/
theorem get_s3_chunk_materializes_whole_body_witness :
    s3_chunk_size < (List.replicate (s3_chunk_size + 1) 0).length ∧
    (get_s3_chunk (List.replicate (s3_chunk_size + 1) 0) =
        [List.replicate (s3_chunk_size + 1) 0] ∧
      ∃ chunk ∈ get_s3_chunk (List.replicate (s3_chunk_size + 1) 0),
        s3_chunk_size < chunk.length ∧ chunk = List.replicate (s3_chunk_size + 1) 0) :=
  ⟨by simp,
   get_s3_chunk_materializes_whole_body (List.replicate (s3_chunk_size + 1) 0)
     (by simp)⟩

/-- Helper for C6: NFKD leaves an all-ASCII character list unchanged
(every ASCII character is its own NFKD decomposition). -/
theorem nfkd_ascii_id (s : List Char) (h : ∀ c ∈ s, c.toNat < 128) : nfkd s = s := by
  induction s with
  | nil => rfl
  | cons c cs ih =>
    have hc : c.toNat < 128 := h c (by simp)
    have hcs : ∀ x ∈ cs, x.toNat < 128 := fun x hx => h x (by simp [hx])
    have ihc := ih hcs
    simp only [nfkd, List.map_cons, List.flatten_cons] at ihc ⊢
    rw [ihc]
    simp [decompChar, hc]

/-- C6: a filename containing a non-ASCII character produces a header
carrying both the ASCII-folded plain `filename=` parameter and the
percent-encoded `filename*` parameter; a pure-ASCII filename produces
only the plain parameter, unchanged. -/
theorem content_disposition_filename_params (filename : List Char) :
    ((∃ c ∈ filename, 128 ≤ c.toNat) →
      content_disposition_header filename attachmentWord =
        attachmentWord ++ "; filename=\"".data ++ asciiIgnore (nfkd filename) ++
          "\"".data ++ "; filename*=UTF-8\x27\x27".data ++ quote filename) ∧
    ((∀ c ∈ filename, c.toNat < 128) →
      content_disposition_header filename attachmentWord =
        attachmentWord ++ "; filename=\"".data ++ filename ++ "\"".data) := by
  constructor
  · rintro ⟨c, hc, hge⟩
    have hne : asciiIgnore (nfkd filename) ≠ filename := by
      intro he
      have hmem : c ∈ asciiIgnore (nfkd filename) := by rw [he]; exact hc
      have hlt := (List.mem_filter.mp hmem).2
      simp only [decide_eq_true_eq] at hlt
      omega
    simp only [content_disposition_header]
    rw [if_pos hne]
  · intro hall
    have h1 : nfkd filename = filename := nfkd_ascii_id filename hall
    have h2 : asciiIgnore filename = filename :=
      List.filter_eq_self.mpr (fun a ha => by simpa using hall a ha)
    simp only [content_disposition_header, h1, h2]
    rw [if_neg (by simp)]

/-- Witness for C6: the non-ASCII filename résumé.pdf yields both
parameters (with the exact folded and percent-encoded forms of the
spec's example) and the ASCII filename report.pdf yields only the plain
parameter. -/
theorem content_disposition_filename_params_witness :
    (∃ c ∈ "résumé.pdf".data, 128 ≤ c.toNat) ∧
    content_disposition_header "résumé.pdf".data attachmentWord =
      attachmentWord ++ "; filename=\"".data ++ asciiIgnore (nfkd "résumé.pdf".data) ++
        "\"".data ++ "; filename*=UTF-8\x27\x27".data ++ quote "résumé.pdf".data ∧
    String.mk (content_disposition_header "résumé.pdf".data attachmentWord) =
      "attachment; filename=\"resume.pdf\"; filename*=UTF-8\x27\x27r%C3%A9sum%C3%A9.pdf" ∧
    (∀ c ∈ "report.pdf".data, c.toNat < 128) ∧
    content_disposition_header "report.pdf".data attachmentWord =
      attachmentWord ++ "; filename=\"".data ++ "report.pdf".data ++ "\"".data :=
  ⟨by decide,
   (content_disposition_filename_params "résumé.pdf".data).1 (by decide),
   by decide,
   by decide,
   (content_disposition_filename_params "report.pdf".data).2 (by decide)⟩

end Atlas
